import Mathlib

/-
Shallow embedding of the authentication and account-security subsystem of the
skillup-platform user-management backend (auth_service.py, security_service.py,
sms_service.py, database_setup.py, exceptions.py, error_handler.py, config.py).

Modelling conventions:
- Python wall-clock times (time.time(), datetime.utcnow()) are Nat seconds passed
  explicitly to each operation.
- Python dicts used as mutable stores are functions String → Option α; updating a
  key is function update, deleting a key writes none.
- hashlib.sha256(token).hexdigest() is used only to key the blacklist set; it is
  modelled injectively, so the set of hashes is represented by the set of tokens.
- Logging calls (log_info, log_warning, log_security_event, …) are pure no-ops and
  are omitted.
- Exceptions are explicit: fallible code returns Except PyExc α, and the
  handle_exceptions / handle_database_errors decorators are modelled as wrappers
  over those results, mirroring error_handler.py.
-/

/-- Configuration values consumed by the subsystem (config.py).  Each field keeps
the default used when the corresponding environment variable is unset. -/
structure Config where
  jwtExpirationHours : Nat
  maxLoginAttempts : Nat
  loginLockoutMinutes : Nat
  smsCodeExpirySeconds : Nat
  smsRateLimitSeconds : Nat
deriving DecidableEq

/-- Defaults from config.py: JWT_EXPIRATION_HOURS=24, MAX_LOGIN_ATTEMPTS=5,
LOGIN_LOCKOUT_MINUTES=15, SMS_CODE_EXPIRY_SECONDS=300, SMS_RATE_LIMIT_SECONDS=60. -/
def defaultConfig : Config :=
  { jwtExpirationHours := 24
    maxLoginAttempts := 5
    loginLockoutMinutes := 15
    smsCodeExpirySeconds := 300
    smsRateLimitSeconds := 60 }

/-- The JWT signing secret, config.py default for JWT_SECRET_KEY. -/
def JWT_SECRET_KEY : String := "your-super-secret-jwt-key-change-in-production"

/-- Decidable equality on Except, written structurally so that decide can
evaluate it inside the kernel. -/
def exceptDecEq {ε α : Type} [DecidableEq ε] [DecidableEq α] :
    (a b : Except ε α) → Decidable (a = b)
  | .error x, .error y =>
    if h : x = y then .isTrue (by rw [h]) else .isFalse (fun hh => h (by injection hh))
  | .error _, .ok _ => .isFalse (fun h => Except.noConfusion h)
  | .ok _, .error _ => .isFalse (fun h => Except.noConfusion h)
  | .ok x, .ok y =>
    if h : x = y then .isTrue (by rw [h]) else .isFalse (fun hh => h (by injection hh))

instance {ε α : Type} [DecidableEq ε] [DecidableEq α] : DecidableEq (Except ε α) :=
  exceptDecEq

/-- Python falsiness of s or s.strip() for a string: true exactly when the
string is empty or all-whitespace.  (Stands in for the `not s or not s.strip()`
tests; expressed over the character list so that proofs can evaluate it.) -/
def pyBlank (s : String) : Bool := s.data.all Char.isWhitespace

/-- The last four characters of a string (Python s[-4:]), used for the default
user name. -/
def pyLast4 (s : String) : String := ⟨(s.data.reverse.take 4).reverse⟩

/-- Python exception values that can cross the boundaries modelled here.
The um-prefixed constructors are the UserManagementException hierarchy of
exceptions.py, each carrying the final message its constructor builds; the
rest are library or builtin exceptions (PyJWT errors, TypeError, KeyError,
ValueError, AttributeError). -/
inductive PyExc where
  | umGeneric (errorCode : String) (message : String)
  | umDatabase (message : String)
  | umAuthentication (message : String)
  | umValidation (message : String)
  | umSecurity (message : String)
  | umSms (message : String)
  | umRateLimit (message : String)
  | umUserNotFound (message : String)
  | umDuplicateUser (message : String)
  | umAccountLocked (message : String)
  | umTokenBlacklisted (message : String)
  | jwtExpiredSignature
  | jwtInvalidToken
  | typeError (message : String)
  | keyError (key : String)
  | valueError (message : String)
  | attributeError (message : String)
deriving DecidableEq

/-- Whether the exception is an instance of UserManagementException
(the isinstance test performed by the handle_exceptions decorator). -/
def PyExc.isUME : PyExc → Bool
  | .jwtExpiredSignature => false
  | .jwtInvalidToken => false
  | .typeError _ => false
  | .keyError _ => false
  | .valueError _ => false
  | .attributeError _ => false
  | _ => true

/-- The error_code attribute a UserManagementException instance carries
(exceptions.py constructors). Non-business exceptions have none. -/
def PyExc.code : PyExc → String
  | .umGeneric c _ => c
  | .umDatabase _ => "DATABASE_ERROR"
  | .umAuthentication _ => "AUTHENTICATION_ERROR"
  | .umValidation _ => "VALIDATION_ERROR"
  | .umSecurity _ => "SECURITY_ERROR"
  | .umSms _ => "SMS_ERROR"
  | .umRateLimit _ => "RATE_LIMIT_ERROR"
  | .umUserNotFound _ => "USER_NOT_FOUND"
  | .umDuplicateUser _ => "DUPLICATE_USER"
  | .umAccountLocked _ => "SECURITY_ERROR"
  | .umTokenBlacklisted _ => "SECURITY_ERROR"
  | _ => ""

/-- Python str(e) for the exception, as interpolated into f-string messages. -/
def PyExc.str : PyExc → String
  | .umGeneric _ m => m
  | .umDatabase m => m
  | .umAuthentication m => m
  | .umValidation m => m
  | .umSecurity m => m
  | .umSms m => m
  | .umRateLimit m => m
  | .umUserNotFound m => m
  | .umDuplicateUser m => m
  | .umAccountLocked m => m
  | .umTokenBlacklisted m => m
  | .jwtExpiredSignature => "Signature has expired"
  | .jwtInvalidToken => "Invalid token"
  | .typeError m => m
  | .keyError k => k
  | .valueError m => m
  | .attributeError m => m

/-- A row of the users table, as selected by get_user_by_phone. -/
structure UserRec where
  id : Int
  phone_number : String
  password_hash : Option String
  role : String
  status : String
  name : String
deriving DecidableEq

/-- JWT payload claims occurring in this codebase.  generate_jwt_token writes
user_id and role; verify_jwt_token reads phone; exp and iat are the timestamps. -/
structure JwtPayload where
  user_id : Option Int
  role : Option String
  phone : Option String
  exp : Nat
  iat : Nat
deriving DecidableEq

/-- A token string as handled by the subsystem: either a JWT produced by
jwt.encode over a payload with some signing secret, or an arbitrary raw string
that does not parse as a JWT. -/
inductive Tok where
  | signed (payload : JwtPayload) (secret : String)
  | raw (s : String)
deriving DecidableEq

/-- Serialized JWTs are never blank; a raw string is blank when it is empty or
whitespace (the `not token or not token.strip()` test). -/
def Tok.isBlank : Tok → Bool
  | .signed _ _ => false
  | .raw s => pyBlank s

/-- Errors raised by jwt.decode in PyJWT: ExpiredSignatureError is a subclass of
InvalidTokenError; the sources always catch the expired case first. -/
inductive JwtErr where
  | expiredSignature
  | invalidToken
deriving DecidableEq

/-- jwt.decode(token, secret, algorithms=[HS256]) at time now: a raw string or a
token signed with a different secret fails as invalid; a structurally valid,
correctly signed token whose exp claim has passed fails as expired (PyJWT treats
exp ≤ now as expired); otherwise the payload is returned.  Signature is checked
before expiry, as in PyJWT. -/
def jwt_decode (t : Tok) (secret : String) (now : Nat) : Except JwtErr JwtPayload :=
  match t with
  | .raw _ => .error .invalidToken
  | .signed p s =>
    if s = secret then
      if p.exp ≤ now then .error .expiredSignature else .ok p
    else .error .invalidToken

/-- Modelled from the bcrypt library (an external dependency, not repository
code): bcrypt.hashpw produces a digest beginning with a bcrypt salt marker.  The
digest is modelled as an injective function of the password, the random salt
elided (the repository only ever feeds a digest back into bcrypt.checkpw). -/
def bcrypt_hashpw (password : String) : String :=
  "$2b$12$modelsalt$".append password

/-- Modelled from the bcrypt library: bcrypt.checkpw parses the salt from the
stored hash and raises ValueError (invalid salt) when the hash does not carry a
bcrypt marker; otherwise it compares digests and returns a Bool. -/
def bcrypt_checkpw (password hashed : String) : Except PyExc Bool :=
  if hashed.data.take 2 == ['$', '2'] then .ok (hashed == bcrypt_hashpw password)
  else .error (.valueError "Invalid salt")

/-- database_setup.hash_password: bcrypt.hashpw(password, gensalt()). -/
def hash_password (password : String) : String := bcrypt_hashpw password

/-- database_setup.verify_password: bcrypt.checkpw(password.encode,
hashed_password.encode).  When the stored hash is NULL (SMS-provisioned account),
Python fails with AttributeError on None.encode before bcrypt runs. -/
def verify_password (password : String) (hashed_password : Option String) :
    Except PyExc Bool :=
  match hashed_password with
  | none => .error (.attributeError "NoneType object has no attribute encode")
  | some h => bcrypt_checkpw password h

/-- auth_service.get_user_by_phone: validates the phone, then runs
SELECT … FROM users WHERE phone_number = ? AND status != deleted, returning the
first row or none.  The ValidationException raised for a blank phone is rewrapped
by the handle_database_errors decorator as DatabaseException, message prefixed
with the decorator text. -/
def get_user_by_phone (db : List UserRec) (phone_number : String) :
    Except PyExc (Option UserRec) :=
  if pyBlank phone_number then
    .error (.umDatabase "数据库操作失败: 手机号不能为空")
  else
    .ok (db.find? fun u => u.phone_number == phone_number && u.status != "deleted")

/-- auth_service.create_new_user as invoked from verify_sms_and_login (phone
only; defaults password=None, name=None, role=Student).  Checks for an existing
user, then inserts a row with status active, no password hash, and the default
name built from the last four digits; the fresh autoincrement id is one past the
largest id in the table.  The DuplicateUserException raised when the user exists
is rewrapped by handle_database_errors (its constructor treats the message
argument as the identifier, doubling the text). -/
def create_new_user (db : List UserRec) (phone_number : String) :
    Except PyExc (UserRec × List UserRec) :=
  if pyBlank phone_number then
    .error (.umDatabase "数据库操作失败: 手机号不能为空")
  else
    match get_user_by_phone db phone_number with
    | .error e => .error e
    | .ok (some _) => .error (.umDatabase "数据库操作失败: 用户已存在: 用户已存在")
    | .ok none =>
      let newId : Int := (db.foldl (fun m u => max m u.id) 0) + 1
      let user : UserRec :=
        { id := newId
          phone_number := phone_number
          password_hash := none
          role := "Student"
          status := "active"
          name := "用户".append (pyLast4 phone_number) }
      .ok (user, db ++ [user])

/-- Per-identifier login bookkeeping held in SecurityService._login_attempts. -/
structure AttemptData where
  failedCount : Nat
  lastAttempt : Nat
  lockedUntil : Nat
deriving DecidableEq

/-- The mutable state of the SecurityService singleton: the login-attempt dict
and the JWT blacklist set (sha256 hashing of blacklist members modelled
injectively, so the hash set is represented by the set of tokens). -/
structure SecurityState where
  loginAttempts : String → Option AttemptData
  jwtBlacklist : Tok → Bool

/-- The state of a freshly constructed SecurityService (empty dict, empty set). -/
def emptySecurityState : SecurityState :=
  { loginAttempts := fun _ => none, jwtBlacklist := fun _ => false }

/-- SecurityService.record_login_attempt.  A blank identifier raises
SecurityException, which handle_database_errors rewraps as DatabaseException.
Otherwise the entry is created on demand, last_attempt is refreshed, success
resets the counters, and a failure increments failed_count, setting locked_until
= now + LOGIN_LOCKOUT_MINUTES·60 once the count reaches MAX_LOGIN_ATTEMPTS. -/
def record_login_attempt (cfg : Config) (st : SecurityState) (now : Nat)
    (identifier : String) (success : Bool) : Except PyExc SecurityState :=
  if pyBlank identifier then
    .error (.umDatabase "数据库操作失败: 用户标识不能为空")
  else
    let d0 := (st.loginAttempts identifier).getD
      { failedCount := 0, lastAttempt := now, lockedUntil := 0 }
    let d1 := { d0 with lastAttempt := now }
    let d2 :=
      if success then { d1 with failedCount := 0, lockedUntil := 0 }
      else
        let fc := d1.failedCount + 1
        if cfg.maxLoginAttempts ≤ fc then
          { d1 with failedCount := fc,
                    lockedUntil := now + cfg.loginLockoutMinutes * 60 }
        else { d1 with failedCount := fc }
    .ok { st with loginAttempts :=
            fun k => if k = identifier then some d2 else st.loginAttempts k }

/-- SecurityService.is_account_locked: unknown identifiers are unlocked; an
expired lock (0 < locked_until ≤ now) is reset as a side effect and reports
unlocked; otherwise the account is locked exactly when now < locked_until. -/
def is_account_locked (st : SecurityState) (now : Nat) (identifier : String) :
    Bool × SecurityState :=
  match st.loginAttempts identifier with
  | none => (false, st)
  | some d =>
    if 0 < d.lockedUntil ∧ d.lockedUntil ≤ now then
      let d2 : AttemptData := { d with failedCount := 0, lockedUntil := 0 }
      (false, { st with loginAttempts :=
          fun k => if k = identifier then some d2 else st.loginAttempts k })
    else (decide (now < d.lockedUntil), st)

/-- SecurityService.get_remaining_lockout_time: 0 when unlocked, else the
seconds left until locked_until. -/
def get_remaining_lockout_time (st : SecurityState) (now : Nat)
    (identifier : String) : Nat :=
  match st.loginAttempts identifier with
  | none => 0
  | some d => if d.lockedUntil ≤ now then 0 else d.lockedUntil - now

/-- SecurityService.get_failed_attempts_count. -/
def get_failed_attempts_count (st : SecurityState) (identifier : String) : Nat :=
  match st.loginAttempts identifier with
  | none => 0
  | some d => d.failedCount

/-- SecurityService.add_token_to_blacklist: inserts sha256(token) into the
in-memory set (and best-effort persists it; persistence is out-of-scope
storage and not modelled). -/
def add_token_to_blacklist (st : SecurityState) (token : Tok) : SecurityState :=
  { st with jwtBlacklist := fun t => if t = token then true else st.jwtBlacklist t }

/-- SecurityService.is_token_blacklisted: membership of sha256(token). -/
def is_token_blacklisted (st : SecurityState) (token : Tok) : Bool :=
  st.jwtBlacklist token

/-- The dict a verified token resolves to: the user sub-dict of the
create_success_response data in verify_jwt_token. -/
structure UserView where
  user_id : Int
  phone : String
  role : String
  status : String
deriving DecidableEq

/-- The dict-shaped results produced by functions wrapped in handle_exceptions
with return_dict=True: either a create_success_response dict (message plus
optional user data) or the error dict the decorator builds from an exception. -/
inductive ApiResp where
  | ok (message : String) (data : Option UserView)
  | err (errorCode : String) (message : String)
deriving DecidableEq

/-- The error dict handle_exceptions returns for an exception escaping a
return_dict=True function: business exceptions keep their error_code and
message; anything else becomes the generic INTERNAL_ERROR response. -/
def handleExceptionsDict (e : PyExc) : ApiResp :=
  if e.isUME then .err e.code e.str
  else .err "INTERNAL_ERROR" "系统内部错误，请稍后重试"

/-- The except-clause logic inside authenticate_user: ValidationException,
AuthenticationException and AccountLockedException are re-raised unchanged;
every other exception is rewrapped as DatabaseException with the
认证过程中发生错误 prefix.  The surrounding handle_exceptions(return_dict=False)
decorator then re-raises business exceptions unchanged. -/
def authCatch (e : PyExc) : PyExc :=
  match e with
  | .umValidation _ => e
  | .umAuthentication _ => e
  | .umAccountLocked _ => e
  | _ => .umDatabase ("认证过程中发生错误: ".append e.str)

/-- The TypeError message produced when auth_service calls
AccountLockedException with a single message string although the constructor in
exceptions.py requires (identifier, remaining_time). -/
def accountLockedArityMsg : String :=
  "AccountLockedException.__init__ missing 1 required positional argument: remaining_time"

/-- The TypeError message produced when auth_service calls
AuthenticationException with an error_code keyword argument that the
constructor in exceptions.py does not accept. -/
def authErrorCodeKwargMsg : String :=
  "AuthenticationException.__init__ got an unexpected keyword argument error_code"

/-- auth_service.authenticate_user, threading the SecurityService state.  Steps
of the source: empty-input validation; lockout check (the attempted
AccountLockedException construction passes one argument to a two-argument
constructor, so Python raises TypeError there, which the generic except clause
converts into DatabaseException); user lookup; password verification; attempt
recording; and the except-clause logic modelled by authCatch. -/
def authenticate_user (cfg : Config) (db : List UserRec) (st : SecurityState)
    (now : Nat) (phone_number password : String) :
    Except PyExc (Int × String) × SecurityState :=
  if phone_number = "" ∨ password = "" then
    (.error (.umValidation "手机号和密码不能为空"), st)
  else
    let r1 := is_account_locked st now phone_number
    let st1 := r1.snd
    if r1.fst then
      (.error (authCatch (.typeError accountLockedArityMsg)), st1)
    else
      match get_user_by_phone db phone_number with
      | .error e => (.error (authCatch e), st1)
      | .ok none =>
        match record_login_attempt cfg st1 now phone_number false with
        | .error e => (.error (authCatch e), st1)
        | .ok st2 => (.error (authCatch (.umAuthentication "手机号或密码错误")), st2)
      | .ok (some user) =>
        match verify_password password user.password_hash with
        | .error e => (.error (authCatch e), st1)
        | .ok false =>
          match record_login_attempt cfg st1 now phone_number false with
          | .error e => (.error (authCatch e), st1)
          | .ok st2 => (.error (authCatch (.umAuthentication "手机号或密码错误")), st2)
        | .ok true =>
          match record_login_attempt cfg st1 now phone_number true with
          | .error e => (.error (authCatch e), st1)
          | .ok st2 => (.ok (user.id, user.role), st2)

/-- auth_service.generate_jwt_token: rejects falsy user_id (0) or role (empty)
with ValidationException, which the surrounding handle_exceptions() decorator
(return_dict defaulting to True) turns into an error dict; otherwise signs a
payload carrying user_id, role, exp = now + JWT_EXPIRATION_HOURS hours and
iat = now with the configured secret.  The payload has no phone claim. -/
def generate_jwt_token (cfg : Config) (now : Nat) (user_id : Int) (role : String) :
    Sum ApiResp Tok :=
  if user_id = 0 ∨ role = "" then
    .inl (.err "VALIDATION_ERROR" "用户ID和角色不能为空")
  else
    .inr (.signed
      { user_id := some user_id
        role := some role
        phone := none
        exp := now + cfg.jwtExpirationHours * 3600
        iat := now }
      JWT_SECRET_KEY)

/-- The generic response every failure inside the try of verify_jwt_token ends
up as: each except branch rethrows via AuthenticationException(message,
error_code=...), whose constructor does not accept error_code, so Python raises
TypeError; the handle_exceptions decorator (return_dict=True) then returns the
INTERNAL_ERROR dict. -/
def verifyInternalErr : ApiResp :=
  handleExceptionsDict (.typeError authErrorCodeKwargMsg)

/-- auth_service.verify_jwt_token.  Blank tokens fail validation before the try.
Inside the try: blacklist membership raises TokenBlacklistedException, jwt.decode
raises expiry or invalidity errors, a decoded payload is dereferenced at
payload[phone] (KeyError when absent — and generate_jwt_token never writes a
phone claim), and a missing user raises UserNotFoundException.  Every one of
those failures is rethrown through an AuthenticationException call with an
error_code keyword the constructor rejects, so each becomes TypeError and the
decorator returns the generic INTERNAL_ERROR dict (verifyInternalErr). -/
def verify_jwt_token (cfg : Config) (db : List UserRec) (st : SecurityState)
    (now : Nat) (token : Tok) : ApiResp :=
  if token.isBlank then
    handleExceptionsDict (.umValidation "令牌不能为空")
  else if is_token_blacklisted st token then
    verifyInternalErr
  else
    match jwt_decode token JWT_SECRET_KEY now with
    | .error _ => verifyInternalErr
    | .ok payload =>
      match payload.phone with
      | none => verifyInternalErr
      | some ph =>
        match get_user_by_phone db ph with
        | .error _ => verifyInternalErr
        | .ok none => verifyInternalErr
        | .ok (some u) =>
          .ok "令牌验证成功"
            (some { user_id := u.id, phone := u.phone_number,
                    role := u.role, status := u.status })

/-- auth_service.logout_user, threading the SecurityService state.  A blank
token fails validation.  A decodable token is blacklisted and logout succeeds;
an expired token is still blacklisted and logout succeeds with the 令牌已过期
message; an invalid token is NOT blacklisted — the handler attempts
AuthenticationException(无效的令牌, error_code=invalid_token), whose constructor
rejects the keyword, so TypeError escapes and the decorator returns the generic
INTERNAL_ERROR dict. -/
def logout_user (cfg : Config) (st : SecurityState) (now : Nat) (token : Tok) :
    ApiResp × SecurityState :=
  if token.isBlank then
    (handleExceptionsDict (.umValidation "令牌不能为空"), st)
  else
    match jwt_decode token JWT_SECRET_KEY now with
    | .ok _ =>
      (.ok "登出成功" none, add_token_to_blacklist st token)
    | .error .expiredSignature =>
      (.ok "登出成功（令牌已过期）" none, add_token_to_blacklist st token)
    | .error .invalidToken =>
      (handleExceptionsDict (.typeError authErrorCodeKwargMsg), st)

/-- The TEMP_STORAGE dict of sms_service, split by key prefix: sms_code entries
and rate_limit entries (last send time per phone). -/
structure SmsState where
  codes : String → Option String
  rateLimit : String → Option Nat

/-- TEMP_STORAGE at module load: empty. -/
def emptySmsState : SmsState :=
  { codes := fun _ => none, rateLimit := fun _ => none }

/-- sms_service.send_verification_code.  The 6-digit code produced by
random.randint(100000, 999999) is passed in as rnd (randomness made explicit).
The rate limit rejects a resend within SMS_RATE_LIMIT_SECONDS of the stored
timestamp (absent treated as 0); on success the code is stored (overwriting any
prior code for the phone) and the rate-limit timestamp is updated.  No issue
time is stored for the code itself. -/
def send_verification_code (cfg : Config) (st : SmsState) (now : Nat)
    (phone_number : String) (rnd : Nat) : ApiResp × SmsState :=
  if phone_number = "" then
    (handleExceptionsDict (.umValidation "手机号不能为空"), st)
  else
    let lastSent := (st.rateLimit phone_number).getD 0
    if now - lastSent < cfg.smsRateLimitSeconds then
      (handleExceptionsDict (.umRateLimit
        ((("请等待 ".append (toString (cfg.smsRateLimitSeconds - (now - lastSent)))).append
          " 秒后再发送"))), st)
    else
      let code := toString rnd
      (.ok "验证码发送成功。" none,
        { codes := fun k => if k = phone_number then some code else st.codes k
          rateLimit := fun k => if k = phone_number then some now else st.rateLimit k })

/-- The success dict of verify_sms_and_login: message (登录成功 or
注册并登录成功), the token handed back by generate_jwt_token (an error dict when
generation fails — the source stores whatever generate_jwt_token returned), and
the user triple. -/
structure SmsLoginData where
  message : String
  token : Sum ApiResp Tok
  user_id : Int
  phone_number : String
  role : String
deriving DecidableEq

/-- Result of verify_sms_and_login: success dict or decorator error dict. -/
inductive SmsResp where
  | ok (data : SmsLoginData)
  | err (errorCode : String) (message : String)
deriving DecidableEq

/-- Whether the response is the success dict. -/
def SmsResp.isOk : SmsResp → Bool
  | .ok _ => true
  | .err _ _ => false

/-- The error dict the handle_exceptions decorator (return_dict=True) builds
for an exception escaping verify_sms_and_login (the inner except clause of the
source only logs and re-raises). -/
def smsErrOf (e : PyExc) : SmsResp :=
  if e.isUME then .err e.code e.str
  else .err "INTERNAL_ERROR" "系统内部错误，请稍后重试"

/-- sms_service.verify_sms_and_login, threading the code store and the user
table.  Steps of the source: empty-input validation; CodeNotFound when no code
is stored for the phone; CodeMismatch when it differs; on match the code is
deleted immediately, then the user is looked up and either logged in or
auto-provisioned via create_new_user.  No expiry check is performed on the
stored code and no clock is consulted for it (CODE_EXPIRY_SECONDS is never
read); now only feeds token generation timestamps.  Exceptions escaping the
user lookup or creation are re-raised and the handle_exceptions decorator
(return_dict=True) converts them to error dicts. -/
def verify_sms_and_login (cfg : Config) (db : List UserRec) (st : SmsState)
    (now : Nat) (phone_number code : String) :
    SmsResp × SmsState × List UserRec :=
  if phone_number = "" ∨ code = "" then
    (.err "VALIDATION_ERROR" "手机号和验证码不能为空", st, db)
  else
    match st.codes phone_number with
    | none => (.err "AUTHENTICATION_ERROR" "验证码不存在或已过期", st, db)
    | some stored =>
      if stored ≠ code then
        (.err "AUTHENTICATION_ERROR" "验证码错误", st, db)
      else
        let st1 : SmsState :=
          { st with codes := fun k => if k = phone_number then none else st.codes k }
        match get_user_by_phone db phone_number with
        | .error e => (smsErrOf e, st1, db)
        | .ok (some user) =>
          (.ok { message := "登录成功"
                 token := generate_jwt_token cfg now user.id user.role
                 user_id := user.id
                 phone_number := user.phone_number
                 role := user.role }, st1, db)
        | .ok none =>
          match create_new_user db phone_number with
          | .error e => (smsErrOf e, st1, db)
          | .ok (newUser, db1) =>
            (.ok { message := "注册并登录成功"
                   token := generate_jwt_token cfg now newUser.id newUser.role
                   user_id := newUser.id
                   phone_number := newUser.phone_number
                   role := newUser.role }, st1, db1)

/-- Unfolding of the generic response constant. -/
theorem verifyInternalErr_eq :
    verifyInternalErr = .err "INTERNAL_ERROR" "系统内部错误，请稍后重试" := rfl

/-- Any signed token whose payload lacks a phone claim can never verify:
whatever the blacklist, the secret and the current time, verify_jwt_token ends
in the generic INTERNAL_ERROR response. -/
theorem verify_jwt_token_signed_no_phone (cfg : Config) (db : List UserRec)
    (st : SecurityState) (now : Nat) (p : JwtPayload) (s : String)
    (hp : p.phone = none) :
    verify_jwt_token cfg db st now (.signed p s) = verifyInternalErr := by
  cases hbl : is_token_blacklisted st (.signed p s) with
  | true =>
    unfold verify_jwt_token
    simp [Tok.isBlank, hbl]
  | false =>
    by_cases hs : s = JWT_SECRET_KEY
    · by_cases he : p.exp ≤ now
      · unfold verify_jwt_token
        simp [Tok.isBlank, hbl, jwt_decode, hs, he]
      · unfold verify_jwt_token
        simp [Tok.isBlank, hbl, jwt_decode, hs, he, hp]
    · unfold verify_jwt_token
      simp [Tok.isBlank, hbl, jwt_decode, hs]

/-- Claim C1: for an existing active user with a correct password, authenticate
returns (userId, role) and generateToken yields a token, but verifyToken on
that token does NOT succeed with the same identity: verify_jwt_token reads
payload[phone], a claim generate_jwt_token never writes, so the lookup raises
KeyError and the response collapses to the generic INTERNAL_ERROR dict.  The
theorem shows every token generate_jwt_token emits fails verification, against
every user table, blacklist state and verification time. -/
theorem C1_issue_verify_roundtrip_fails (cfg : Config) (db : List UserRec)
    (st : SecurityState) (now now2 : Nat) (uid : Int) (role : String) (t : Tok)
    (hgen : generate_jwt_token cfg now uid role = .inr t) :
    verify_jwt_token cfg db st now2 t =
      .err "INTERNAL_ERROR" "系统内部错误，请稍后重试" := by
  unfold generate_jwt_token at hgen
  by_cases h0 : uid = 0 ∨ role = ""
  · rw [if_pos h0] at hgen
    exact absurd hgen (by simp)
  · rw [if_neg h0] at hgen
    injection hgen with ht
    rw [← ht]
    rw [verify_jwt_token_signed_no_phone cfg db st now2 _ JWT_SECRET_KEY rfl]
    exact verifyInternalErr_eq

/-- A user table with one active user whose password is pass123456. -/
def activeUserDb : List UserRec :=
  [{ id := 1, phone_number := "13800138000",
     password_hash := some (bcrypt_hashpw "pass123456"),
     role := "Student", status := "active", name := "u" }]

/-- The token generate_jwt_token emits at time 0 for user 1 with role Student. -/
def sampleTok : Tok :=
  .signed { user_id := some 1, role := some "Student", phone := none,
            exp := 86400, iat := 0 } JWT_SECRET_KEY

/-- Witness for C1 at the concrete scenario: authentication succeeds, token
generation succeeds, yet verification returns the generic error. -/
theorem C1_witness :
    (authenticate_user defaultConfig activeUserDb emptySecurityState 0
        "13800138000" "pass123456").fst = .ok (1, "Student")
    ∧ generate_jwt_token defaultConfig 0 1 "Student" = .inr sampleTok
    ∧ verify_jwt_token defaultConfig activeUserDb emptySecurityState 0 sampleTok =
        .err "INTERNAL_ERROR" "系统内部错误，请稍后重试" :=
  ⟨by decide, by decide,
    C1_issue_verify_roundtrip_fails defaultConfig activeUserDb emptySecurityState
      0 0 1 "Student" sampleTok (by decide)⟩

/-- Claim C2: after logout, verifyToken on the token always fails — the
blacklist is consulted before any signature or expiry validation, so the
failure occurs for every token, valid or not, at every time.  However the
surfaced error is NOT the TokenRevoked kind: the TokenBlacklistedException the
source raises is swallowed by the generic except clause, whose rethrow
constructs AuthenticationException with an unsupported error_code keyword, so
TypeError escapes and the decorator returns the INTERNAL_ERROR dict. -/
theorem C2_revoked_token_fails_generic (cfg : Config) (db : List UserRec)
    (st : SecurityState) (now : Nat) (t : Tok)
    (hnb : t.isBlank = false)
    (hbl : is_token_blacklisted st t = true) :
    verify_jwt_token cfg db st now t =
      .err "INTERNAL_ERROR" "系统内部错误，请稍后重试" := by
  unfold verify_jwt_token
  rw [hnb, hbl]
  simp [verifyInternalErr, handleExceptionsDict, PyExc.isUME]

/-- Witness for C2: logout a freshly issued token, then verify it while its
expiry is still far in the future — the call fails (with the generic error the
code actually produces). -/
theorem C2_witness :
    is_token_blacklisted
        (logout_user defaultConfig emptySecurityState 0 sampleTok).2 sampleTok = true
    ∧ verify_jwt_token defaultConfig activeUserDb
        (logout_user defaultConfig emptySecurityState 0 sampleTok).2 5 sampleTok =
        .err "INTERNAL_ERROR" "系统内部错误，请稍后重试" :=
  ⟨by decide,
    C2_revoked_token_fails_generic defaultConfig activeUserDb
      (logout_user defaultConfig emptySecurityState 0 sampleTok).2 5 sampleTok
      (by decide) (by decide)⟩

/-- Recording a failed attempt for a non-blank identifier always succeeds and
increments the stored failure count by exactly one. -/
theorem record_fail_count (cfg : Config) (st : SecurityState) (now : Nat)
    (identifier : String) (hid : pyBlank identifier = false) :
    ∃ st1, record_login_attempt cfg st now identifier false = .ok st1 ∧
      get_failed_attempts_count st1 identifier
        = get_failed_attempts_count st identifier + 1 := by
  unfold record_login_attempt
  rw [hid]
  simp only [Bool.false_eq_true, if_false]
  refine ⟨_, rfl, ?_⟩
  unfold get_failed_attempts_count
  cases hA : st.loginAttempts identifier <;>
    simp only [hA, Option.getD_some, Option.getD_none] <;>
    simp <;> split <;> rfl

/-- Claim C4 (code bug): authenticating against a locked identifier fails
without consulting the user table (db is arbitrary) and irrespective of the
password, but NOT with the AccountLocked kind carrying the remaining seconds:
the source passes a single message to AccountLockedException, whose constructor
requires (identifier, remaining_time), so TypeError is raised and converted by
the generic except clause into DatabaseException. -/
theorem C4_locked_account_database_error (cfg : Config) (db : List UserRec)
    (st : SecurityState) (now : Nat) (phone password : String)
    (hp : phone ≠ "") (hw : password ≠ "")
    (hl : (is_account_locked st now phone).fst = true) :
    (authenticate_user cfg db st now phone password).fst =
      .error (.umDatabase ("认证过程中发生错误: ".append accountLockedArityMsg)) := by
  unfold authenticate_user
  rw [if_neg (show ¬(phone = "" ∨ password = "") by simp [hp, hw])]
  simp [hl, authCatch, PyExc.str]

/-- A SecurityService state in which phone p4 is locked until time 900. -/
def lockedSt : SecurityState :=
  { loginAttempts := fun k =>
      if k = "p4" then some { failedCount := 5, lastAttempt := 0, lockedUntil := 900 }
      else none
    jwtBlacklist := fun _ => false }

/-- Witness for C4 at a concrete locked state and time 10 (890 seconds of
lockout remain, which the produced error does not carry). -/
theorem C4_witness :
    (authenticate_user defaultConfig [] lockedSt 10 "p4" "whatever").fst =
      .error (.umDatabase ("认证过程中发生错误: ".append accountLockedArityMsg)) :=
  C4_locked_account_database_error defaultConfig [] lockedSt 10 "p4" "whatever"
    (by decide) (by decide) (by decide)

/-- Claim C10 counterexample: verify_password on a malformed (non-bcrypt) hash
raises ValueError instead of returning false. -/
theorem C10_counterexample :
    verify_password "password123" (some "not-a-bcrypt-hash") =
      .error (.valueError "Invalid salt") := by decide

/-- Claim C10 (amended): for a hash bearing the bcrypt salt marker the verify
operation returns a boolean (the digest comparison); for a malformed hash it
raises ValueError (surfaced by authenticate_user as DatabaseException) rather
than returning false. -/
theorem C10_amended (pw h : String) :
    ((h.data.take 2 == ['$', '2']) = true →
        verify_password pw (some h) = .ok (h == bcrypt_hashpw pw))
    ∧ ((h.data.take 2 == ['$', '2']) = false →
        verify_password pw (some h) = .error (.valueError "Invalid salt")) := by
  constructor <;> intro hh <;> simp [verify_password, bcrypt_checkpw, hh]

/-- Witness for C10 (amended), at a well-formed and a malformed hash. -/
theorem C10_witness :
    verify_password "pw" (some (bcrypt_hashpw "pw")) =
        .ok (bcrypt_hashpw "pw" == bcrypt_hashpw "pw")
    ∧ verify_password "pw" (some "zz") = .error (.valueError "Invalid salt") :=
  ⟨(C10_amended "pw" (bcrypt_hashpw "pw")).1 (by decide),
   (C10_amended "pw" "zz").2 (by decide)⟩

/-- A user table with one suspended user whose password is pw. -/
def suspendedDb : List UserRec :=
  [{ id := 1, phone_number := "p6", password_hash := some (bcrypt_hashpw "pw"),
     role := "Teacher", status := "suspended", name := "u" }]

/-- Claim C6 counterexample: a Suspended account with the correct password
authenticates successfully — the lookup only filters status deleted and
authenticate_user never checks the status field. -/
theorem C6_counterexample :
    (authenticate_user defaultConfig suspendedDb emptySecurityState 0 "p6" "pw").fst =
      .ok (1, "Teacher") := by decide

/-- Claim C6 (amended): only accounts whose rows all carry status deleted are
rejected at authentication time (the lookup excludes them, so the attempt fails
exactly like a nonexistent user); other statuses, including Suspended, are not
rejected. -/
theorem C6_amended (cfg : Config) (db : List UserRec) (st : SecurityState)
    (now : Nat) (phone pw : String)
    (hp : phone ≠ "") (hw : pw ≠ "") (hpb : pyBlank phone = false)
    (hl : (is_account_locked st now phone).fst = false)
    (hdel : ∀ u ∈ db, u.phone_number = phone → u.status = "deleted") :
    (authenticate_user cfg db st now phone pw).fst =
      .error (.umAuthentication "手机号或密码错误") := by
  have hfind : db.find?
      (fun u => u.phone_number == phone && u.status != "deleted") = none := by
    rw [List.find?_eq_none]
    intro u hu
    simp only [Bool.and_eq_true, beq_iff_eq, bne_iff_ne, ne_eq, not_and,
      Decidable.not_not]
    intro hp2
    exact hdel u hu hp2
  have hg : get_user_by_phone db phone = .ok none := by
    unfold get_user_by_phone
    rw [hpb]
    simp [hfind]
  obtain ⟨st2, hrec, _⟩ :=
    record_fail_count cfg (is_account_locked st now phone).snd now phone hpb
  unfold authenticate_user
  rw [if_neg (show ¬(phone = "" ∨ pw = "") by simp [hp, hw])]
  simp only [hl, Bool.false_eq_true, if_false, hg, hrec]
  simp [authCatch]

/-- A user table whose only row for phone pd is soft-deleted. -/
def deletedDb : List UserRec :=
  [{ id := 1, phone_number := "pd", password_hash := some (bcrypt_hashpw "pw"),
     role := "Student", status := "deleted", name := "u" }]

/-- Witness for C6 (amended) on a table whose only matching row is deleted. -/
theorem C6_witness :
    (authenticate_user defaultConfig deletedDb emptySecurityState 0 "pd" "pw").fst =
      .error (.umAuthentication "手机号或密码错误") :=
  C6_amended defaultConfig deletedDb emptySecurityState 0 "pd" "pw"
    (by decide) (by decide) (by decide) (by decide) (by decide)

/-- A user table with one active user for the phone used in the SMS scenario. -/
def smsUserDb : List UserRec :=
  [{ id := 1, phone_number := "13900000008", password_hash := none,
     role := "Student", status := "active", name := "u" }]

/-- Claim C8 (code bug): a verification code issued at time 1000000 still
validates at time 1000301, i.e. 301 seconds later, beyond the configured
SMS_CODE_EXPIRY_SECONDS = 300: the stored code carries no issue timestamp and
verify_sms_and_login never consults a clock for it, so stale codes validate. -/
theorem C8_stale_code_validates :
    (send_verification_code defaultConfig emptySmsState 1000000 "13900000008"
        123456).1 = .ok "验证码发送成功。" none
    ∧ ((verify_sms_and_login defaultConfig smsUserDb
        (send_verification_code defaultConfig emptySmsState 1000000 "13900000008"
          123456).2
        1000301 "13900000008" "123456").1).isOk = true
    ∧ defaultConfig.smsCodeExpirySeconds = 300 := by decide

/-- Claim C9 counterexample: logout on a structurally invalid token fails with
the generic error and does NOT blacklist the token, contradicting the claim
that the raw token is blacklisted regardless of whether parsing succeeds. -/
theorem C9_counterexample :
    (logout_user defaultConfig emptySecurityState 0 (.raw "garbage")).1 =
        .err "INTERNAL_ERROR" "系统内部错误，请稍后重试"
    ∧ is_token_blacklisted
        (logout_user defaultConfig emptySecurityState 0 (.raw "garbage")).2
        (.raw "garbage") = false := by decide

/-- Claim C9 (amended): logout blacklists the token when parsing succeeds or
fails only because of expiry, reporting success in both cases (with the
令牌已过期 message in the expired case); a structurally invalid token is NOT
blacklisted and logout fails — with the generic INTERNAL_ERROR response, since
the intended invalid-token error is itself defeated by the error_code keyword
TypeError — an outcome distinct from the expired case. -/
theorem C9_amended (cfg : Config) (st : SecurityState) (now : Nat) (t : Tok)
    (hnb : t.isBlank = false) :
    (∀ p, jwt_decode t JWT_SECRET_KEY now = .ok p →
        logout_user cfg st now t = (.ok "登出成功" none, add_token_to_blacklist st t))
    ∧ (jwt_decode t JWT_SECRET_KEY now = .error .expiredSignature →
        logout_user cfg st now t =
          (.ok "登出成功（令牌已过期）" none, add_token_to_blacklist st t))
    ∧ (jwt_decode t JWT_SECRET_KEY now = .error .invalidToken →
        logout_user cfg st now t =
          (.err "INTERNAL_ERROR" "系统内部错误，请稍后重试", st)) := by
  refine ⟨fun p hd => ?_, fun hd => ?_, fun hd => ?_⟩ <;>
    (unfold logout_user
     rw [hnb]
     simp [hd, handleExceptionsDict, PyExc.isUME])

/-- A token that is already expired at time 10 (exp = 5). -/
def expiredTok : Tok :=
  .signed { user_id := some 1, role := some "Student", phone := none,
            exp := 5, iat := 0 } JWT_SECRET_KEY

/-- Witness for C9 (amended): an expired token is still blacklisted and logout
reports success with the expired message. -/
theorem C9_witness :
    logout_user defaultConfig emptySecurityState 10 expiredTok =
      (.ok "登出成功（令牌已过期）" none,
       add_token_to_blacklist emptySecurityState expiredTok) :=
  (C9_amended defaultConfig emptySecurityState 10 expiredTok (by decide)).2.1
    (by decide)

/-- A verify_sms_and_login call finding no stored code for the phone fails with
the 验证码不存在或已过期 authentication error. -/
theorem verify_sms_code_not_found (cfg : Config) (db : List UserRec)
    (st : SmsState) (now : Nat) (phone code : String)
    (hpc : ¬(phone = "" ∨ code = "")) (hc : st.codes phone = none) :
    (verify_sms_and_login cfg db st now phone code).1 =
      .err "AUTHENTICATION_ERROR" "验证码不存在或已过期" := by
  unfold verify_sms_and_login
  rw [if_neg hpc, hc]

/-- A successful verify_sms_and_login call implies its inputs passed the
emptiness validation. -/
theorem verify_sms_ok_not_blank (cfg : Config) (db : List UserRec)
    (st : SmsState) (now : Nat) (phone code : String)
    (hok : (verify_sms_and_login cfg db st now phone code).1.isOk = true) :
    ¬(phone = "" ∨ code = "") := by
  intro hpc
  unfold verify_sms_and_login at hok
  rw [if_pos hpc] at hok
  simp [SmsResp.isOk] at hok

/-- A successful verify_sms_and_login call leaves no stored code for the phone
in the resulting SMS state (the code is deleted on match). -/
theorem verify_sms_ok_deletes_code (cfg : Config) (db : List UserRec)
    (st : SmsState) (now : Nat) (phone code : String) (r : SmsResp)
    (st2 : SmsState) (db2 : List UserRec)
    (he : verify_sms_and_login cfg db st now phone code = (r, st2, db2))
    (hok : r.isOk = true) :
    st2.codes phone = none := by
  unfold verify_sms_and_login at he
  split at he
  · injection he with h1 h23
    subst h1
    simp [SmsResp.isOk] at hok
  · split at he
    · injection he with h1 h23
      subst h1
      simp [SmsResp.isOk] at hok
    · split at he
      · injection he with h1 h23
        subst h1
        simp [SmsResp.isOk] at hok
      · split at he
        · injection he with h1 h23
          subst h1
          injection h23 with h2 h3
          subst h2
          simp [SmsResp.isOk, smsErrOf] at hok
          split at hok <;> simp_all
        · injection he with h1 h23
          injection h23 with h2 h3
          subst h2
          simp
        · split at he
          · injection he with h1 h23
            subst h1
            injection h23 with h2 h3
            subst h2
            simp [SmsResp.isOk, smsErrOf] at hok
            split at hok <;> simp_all
          · injection he with h1 h23
            injection h23 with h2 h3
            subst h2
            simp

/-- Claim C7: once verifyAndLogin succeeds for (phone, code), the stored code is
deleted, so an identical second call — at any later time, against the updated
user table — fails with the CodeNotFound error (验证码不存在或已过期). -/
theorem C7_code_single_use (cfg : Config) (db : List UserRec) (st : SmsState)
    (now now2 : Nat) (phone code : String)
    (hok : (verify_sms_and_login cfg db st now phone code).1.isOk = true) :
    (verify_sms_and_login cfg
        (verify_sms_and_login cfg db st now phone code).2.2
        ((verify_sms_and_login cfg db st now phone code).2.1) now2 phone code).1
      = .err "AUTHENTICATION_ERROR" "验证码不存在或已过期" := by
  have hpc := verify_sms_ok_not_blank cfg db st now phone code hok
  have hcodes := verify_sms_ok_deletes_code cfg db st now phone code
    (verify_sms_and_login cfg db st now phone code).1
    (verify_sms_and_login cfg db st now phone code).2.1
    (verify_sms_and_login cfg db st now phone code).2.2 rfl hok
  exact verify_sms_code_not_found cfg _ _ now2 phone code hpc hcodes

/-- An SMS state holding the active code 123456 for phone 13900000008. -/
def smsCodeSt : SmsState :=
  { codes := fun k => if k = "13900000008" then some "123456" else none
    rateLimit := fun _ => none }

/-- Witness for C7: a concrete successful verification followed by an identical
second call that fails with the CodeNotFound error. -/
theorem C7_witness :
    (verify_sms_and_login defaultConfig
        (verify_sms_and_login defaultConfig smsUserDb smsCodeSt 0 "13900000008"
          "123456").2.2
        ((verify_sms_and_login defaultConfig smsUserDb smsCodeSt 0 "13900000008"
          "123456").2.1) 60 "13900000008" "123456").1
      = .err "AUTHENTICATION_ERROR" "验证码不存在或已过期" :=
  C7_code_single_use defaultConfig smsUserDb smsCodeSt 0 60 "13900000008" "123456"
    (by decide)

/-- Claim C5: for an unlocked phone, the failure produced when no user record
exists is the same exception constructor with the identical message as the
failure produced when the user exists but the password fails verification; the
two runs end in identical security states, and both record one additional
failed attempt for the phone. -/
theorem C5_enumeration_indistinguishable (cfg : Config) (dbA dbB : List UserRec)
    (st : SecurityState) (now : Nat) (phone pw : String) (u : UserRec)
    (hp : phone ≠ "") (hw : pw ≠ "") (hpb : pyBlank phone = false)
    (hl : (is_account_locked st now phone).fst = false)
    (h1 : get_user_by_phone dbA phone = .ok none)
    (h2 : get_user_by_phone dbB phone = .ok (some u))
    (hv : verify_password pw u.password_hash = .ok false) :
    (authenticate_user cfg dbA st now phone pw).fst =
        .error (.umAuthentication "手机号或密码错误")
    ∧ (authenticate_user cfg dbA st now phone pw).fst =
        (authenticate_user cfg dbB st now phone pw).fst
    ∧ (authenticate_user cfg dbA st now phone pw).snd =
        (authenticate_user cfg dbB st now phone pw).snd
    ∧ get_failed_attempts_count (authenticate_user cfg dbA st now phone pw).snd phone
        = get_failed_attempts_count (is_account_locked st now phone).snd phone + 1 := by
  obtain ⟨st2, hrec, hcount⟩ :=
    record_fail_count cfg (is_account_locked st now phone).snd now phone hpb
  have eA : authenticate_user cfg dbA st now phone pw
      = (.error (.umAuthentication "手机号或密码错误"), st2) := by
    unfold authenticate_user
    rw [if_neg (show ¬(phone = "" ∨ pw = "") by simp [hp, hw])]
    simp [hl, h1, hrec, authCatch]
  have eB : authenticate_user cfg dbB st now phone pw
      = (.error (.umAuthentication "手机号或密码错误"), st2) := by
    unfold authenticate_user
    rw [if_neg (show ¬(phone = "" ∨ pw = "") by simp [hp, hw])]
    simp [hl, h2, hv, hrec, authCatch]
  refine ⟨by rw [eA], by rw [eA, eB], by rw [eA, eB], by rw [eA]; exact hcount⟩

/-- The user record backing the wrong-password run of the C5 witness. -/
def c5User : UserRec :=
  { id := 1, phone_number := "p5", password_hash := some (bcrypt_hashpw "right"),
    role := "Student", status := "active", name := "u" }

/-- Witness for C5: empty table versus a table holding c5User, probed with a
wrong password — the visible failure is identical. -/
theorem C5_witness :
    (authenticate_user defaultConfig [] emptySecurityState 0 "p5" "wrong").fst =
      .error (.umAuthentication "手机号或密码错误") :=
  (C5_enumeration_indistinguishable defaultConfig [] [c5User] emptySecurityState 0
    "p5" "wrong" c5User (by decide) (by decide) (by decide) (by decide)
    (by decide) (by decide) (by decide)).1

/-- k consecutive failed record_login_attempt calls for one identifier, all at
time t0. -/
def applyFails (cfg : Config) (identifier : String) (t0 : Nat) :
    Nat → SecurityState → Except PyExc SecurityState
  | 0, st => .ok st
  | k + 1, st =>
    match record_login_attempt cfg st t0 identifier false with
    | .error e => .error e
    | .ok st1 => applyFails cfg identifier t0 k st1

/-- The identifier's entry is either absent (with logical count zero) or holds
failedCount = c with no active lock. -/
def unlockedFailState (st : SecurityState) (identifier : String) (c : Nat) : Prop :=
  (st.loginAttempts identifier = none ∧ c = 0)
  ∨ ∃ la, st.loginAttempts identifier =
      some { failedCount := c, lastAttempt := la, lockedUntil := 0 }

/-- Looking up the key just written in the attempts table returns the new
value. -/
theorem lookup_update_self (st : SecurityState) (identifier : String)
    (v : Option AttemptData) :
    ({ st with loginAttempts :=
        fun k => if k = identifier then v else st.loginAttempts k }).loginAttempts
      identifier = v := by simp

/-- One failed attempt below the threshold: the count increments and no lock is
set. -/
theorem record_fail_step_below (cfg : Config) (st : SecurityState) (t0 : Nat)
    (identifier : String) (c : Nat)
    (hid : pyBlank identifier = false)
    (hu : unlockedFailState st identifier c)
    (hlt : c + 1 < cfg.maxLoginAttempts) :
    ∃ st1, record_login_attempt cfg st t0 identifier false = .ok st1 ∧
      unlockedFailState st1 identifier (c + 1) := by
  unfold record_login_attempt
  rw [hid]
  simp only [Bool.false_eq_true, if_false]
  refine ⟨_, rfl, Or.inr ⟨t0, ?_⟩⟩
  rw [lookup_update_self]
  rcases hu with ⟨hn, hc⟩ | ⟨la, hs⟩
  · subst hc
    simp only [hn, Option.getD_none]
    split
    · rename_i hcond
      exfalso
      omega
    · simp
  · simp only [hs, Option.getD_some]
    split
    · rename_i hcond
      exfalso
      omega
    · simp

/-- The failed attempt that reaches the threshold sets the lockout window. -/
theorem record_fail_step_lock (cfg : Config) (st : SecurityState) (t0 : Nat)
    (identifier : String) (c : Nat)
    (hid : pyBlank identifier = false)
    (hu : unlockedFailState st identifier c)
    (hge : cfg.maxLoginAttempts ≤ c + 1) :
    ∃ st1, record_login_attempt cfg st t0 identifier false = .ok st1 ∧
      st1.loginAttempts identifier =
        some { failedCount := c + 1, lastAttempt := t0,
               lockedUntil := t0 + cfg.loginLockoutMinutes * 60 } := by
  unfold record_login_attempt
  rw [hid]
  simp only [Bool.false_eq_true, if_false]
  refine ⟨_, rfl, ?_⟩
  rw [lookup_update_self]
  rcases hu with ⟨hn, hc⟩ | ⟨la, hs⟩
  · subst hc
    simp only [hn, Option.getD_none]
    split
    · simp
    · rename_i hcond
      exfalso
      omega
  · simp only [hs, Option.getD_some]
    split
    · simp
    · rename_i hcond
      exfalso
      omega

/-- Chaining failed attempts that stay strictly below the threshold keeps the
identifier unlocked with the exact cumulative count. -/
theorem applyFails_below (cfg : Config) (identifier : String) (t0 : Nat)
    (hid : pyBlank identifier = false) :
    ∀ (k c : Nat) (st : SecurityState), unlockedFailState st identifier c →
      c + k < cfg.maxLoginAttempts →
      ∃ st1, applyFails cfg identifier t0 k st = .ok st1 ∧
        unlockedFailState st1 identifier (c + k)
  | 0, c, st, hu, _ => ⟨st, rfl, by simpa using hu⟩
  | k + 1, c, st, hu, hlt => by
    obtain ⟨stm, hrec, hum⟩ :=
      record_fail_step_below cfg st t0 identifier c hid hu (by omega)
    obtain ⟨st1, happ, hu1⟩ :=
      applyFails_below cfg identifier t0 hid k (c + 1) stm hum (by omega)
    refine ⟨st1, ?_, ?_⟩
    · unfold applyFails
      rw [hrec]
      exact happ
    · have hckc : c + 1 + k = c + (k + 1) := by omega
      rwa [hckc] at hu1

/-- Chaining k ≥ 1 failed attempts that exactly exhaust the threshold ends in a
locked entry with lockout window t0 + lockout duration. -/
theorem applyFails_lock (cfg : Config) (identifier : String) (t0 : Nat)
    (hid : pyBlank identifier = false) :
    ∀ (k c : Nat) (st : SecurityState), unlockedFailState st identifier c →
      1 ≤ k → c + k = cfg.maxLoginAttempts →
      ∃ st1, applyFails cfg identifier t0 k st = .ok st1 ∧
        st1.loginAttempts identifier =
          some { failedCount := cfg.maxLoginAttempts, lastAttempt := t0,
                 lockedUntil := t0 + cfg.loginLockoutMinutes * 60 }
  | 1, c, st, hu, _, heq => by
    obtain ⟨st1, hrec, h1⟩ :=
      record_fail_step_lock cfg st t0 identifier c hid hu (by omega)
    refine ⟨st1, ?_, ?_⟩
    · unfold applyFails
      rw [hrec]
      rfl
    · rw [h1]
      have hc1 : c + 1 = cfg.maxLoginAttempts := by omega
      rw [hc1]
  | k + 2, c, st, hu, _, heq => by
    obtain ⟨stm, hrec, hum⟩ :=
      record_fail_step_below cfg st t0 identifier c hid hu (by omega)
    obtain ⟨st1, happ, h1⟩ :=
      applyFails_lock cfg identifier t0 hid (k + 1) (c + 1) stm hum (by omega) (by omega)
    refine ⟨st1, ?_, h1⟩
    unfold applyFails
    rw [hrec]
    exact happ

/-- An unlocked entry (or an absent one) is never reported locked. -/
theorem is_account_locked_of_unlockedFailState (st : SecurityState)
    (identifier : String) (c t : Nat) (hu : unlockedFailState st identifier c) :
    (is_account_locked st t identifier).fst = false := by
  rcases hu with ⟨hn, _⟩ | ⟨la, hs⟩
  · unfold is_account_locked
    rw [hn]
  · unfold is_account_locked
    rw [hs]
    simp

/-- An entry whose lock window has not yet elapsed is reported locked. -/
theorem is_account_locked_of_locked_entry (st : SecurityState)
    (identifier : String) (t L fc la : Nat)
    (hs : st.loginAttempts identifier =
      some { failedCount := fc, lastAttempt := la, lockedUntil := L })
    (ht : t < L) :
    (is_account_locked st t identifier).fst = true := by
  simp only [is_account_locked, hs]
  split
  · rename_i h
    exfalso
    omega
  · simp [ht]

/-- Claim C3: from a fresh identifier, exactly MAX_LOGIN_ATTEMPTS consecutive
failed attempts lock the account (for any check instant inside the lockout
window), while MAX_LOGIN_ATTEMPTS - 1 failed attempts leave it unlocked (at any
check instant). -/
theorem C3_lockout_threshold (cfg : Config) (st : SecurityState)
    (identifier : String) (t0 t : Nat)
    (hid : pyBlank identifier = false)
    (hfresh : st.loginAttempts identifier = none)
    (hN : 1 ≤ cfg.maxLoginAttempts)
    (ht : t < t0 + cfg.loginLockoutMinutes * 60) :
    (∃ stN, applyFails cfg identifier t0 cfg.maxLoginAttempts st = .ok stN ∧
        (is_account_locked stN t identifier).fst = true)
    ∧ (∃ stM, applyFails cfg identifier t0 (cfg.maxLoginAttempts - 1) st = .ok stM ∧
        (is_account_locked stM t identifier).fst = false) := by
  have hu0 : unlockedFailState st identifier 0 := Or.inl ⟨hfresh, rfl⟩
  constructor
  · obtain ⟨stN, happ, hN1⟩ :=
      applyFails_lock cfg identifier t0 hid cfg.maxLoginAttempts 0 st hu0 hN (by omega)
    exact ⟨stN, happ,
      is_account_locked_of_locked_entry stN identifier t _ _ _ hN1 ht⟩
  · obtain ⟨stM, happ, huM⟩ :=
      applyFails_below cfg identifier t0 hid (cfg.maxLoginAttempts - 1) 0 st hu0 (by omega)
    exact ⟨stM, happ,
      is_account_locked_of_unlockedFailState stM identifier _ t huM⟩

/-- Witness for C3 at the default threshold 5: five immediate failures lock the
identifier (checked at t=100 inside the 900-second window), four do not. -/
theorem C3_witness :
    (∃ stN, applyFails defaultConfig "p" 0 5 emptySecurityState = .ok stN ∧
        (is_account_locked stN 100 "p").fst = true)
    ∧ (∃ stM, applyFails defaultConfig "p" 0 4 emptySecurityState = .ok stM ∧
        (is_account_locked stM 100 "p").fst = false) :=
  C3_lockout_threshold defaultConfig emptySecurityState "p" 0 100
    (by decide) rfl (by decide) (by decide)
